import Mathlib

/-!
Shallow embedding of `src/core/gemini_client.py` (PDF extraction engine).

The remote Gemini SDK is modelled by an `Env` record: each kind of remote
call is a function of the number of calls of that kind made so far, so the
deterministic extraction pipeline can observe any possible remote behaviour.
Every extraction entry point returns the `ExtractionResult` together with the
ordered trace of remote invocations (`RemoteOp`), which the cleanup and
strategy claims are stated against.
-/

/-- `ExtractionResult` dataclass (gemini_client.py lines 23-34). -/
structure ExtractionResult where
  success : Bool
  text : Option String := none
  error : Option String := none
  prompt_tokens : Option Nat := none
  completion_tokens : Option Nat := none
  total_tokens : Option Nat := none
  page_count : Option Nat := none
  used_caching : Bool := false
deriving DecidableEq

/-- The `%PDF-` magic signature as bytes. -/
def pdfMagic : List Nat := [37, 80, 68, 70, 45]

/-- `bytes.startswith` on byte lists. -/
def bytesStartWith : List Nat → List Nat → Bool
  | _, [] => true
  | [], _ :: _ => false
  | b :: bs, m :: ms => (b == m) && bytesStartWith bs ms

/-- `validate_pdf_bytes` (lines 37-53). -/
def validate_pdf_bytes (pdf_bytes : List Nat) : Bool × String :=
  if pdf_bytes = [] then (false, "File is empty")
  else if bytesStartWith pdf_bytes pdfMagic = false then (false, "File is not a valid PDF")
  else (true, "")

/-- `needle` occurs starting at the head of `hay` (character lists). -/
def charListStartsWith : List Char → List Char → Bool
  | _, [] => true
  | [], _ :: _ => false
  | c :: cs, d :: ds => (c == d) && charListStartsWith cs ds

/-- Substring occurrence on character lists (Python `in` on strings). -/
def charListHas : List Char → List Char → Bool
  | [], needle => needle.isEmpty
  | c :: rest, needle => charListStartsWith (c :: rest) needle || charListHas rest needle

/-- Python `needle in haystack` for strings. -/
def strContains (haystack needle : String) : Bool :=
  charListHas haystack.toList needle.toList

/-- ASCII lowering of one character (the error messages classified by the
source are ASCII). -/
def charLower (c : Char) : Char :=
  if 'A' ≤ c ∧ c ≤ 'Z' then Char.ofNat (c.toNat + 32) else c

/-- Python `s.lower()` as a character list. -/
def pyLowerChars (s : String) : List Char :=
  s.toList.map charLower

/-- The fallback test `"minimum" in error_msg or "token" in error_msg or
"too few" in error_msg` on a lowercased cache-creation error message
(lines 290-292). -/
def isFallbackMsg (m : String) : Bool :=
  charListHas (pyLowerChars m) "minimum".toList ||
    charListHas (pyLowerChars m) "token".toList ||
    charListHas (pyLowerChars m) "too few".toList

/-- The cache-expiry test `"cache" in error_msg or "expired" in error_msg
or "not found" in error_msg` on a lowercased generation error message
(lines 493-494). -/
def isCacheMsg (m : String) : Bool :=
  charListHas (pyLowerChars m) "cache".toList ||
    charListHas (pyLowerChars m) "expired".toList ||
    charListHas (pyLowerChars m) "not found".toList

/-- `GeminiCachedExtractor.LARGE_PDF_THRESHOLD` (line 208). -/
def LARGE_PDF_THRESHOLD : Nat := 5

/-- `GeminiCachedExtractor.PAGES_PER_BATCH` (line 209). -/
def PAGES_PER_BATCH : Nat := 2

/-- The loop `for start in range(1, page_count + 1, PAGES_PER_BATCH)` of
`_calculate_batches`, starting from `start`; the first argument is fuel
bounding the number of iterations (any fuel at least
`page_count + 1 - start` reaches the loop exit). -/
def calcBatchesAux : Nat → Nat → Nat → List (Nat × Nat)
  | 0, _, _ => []
  | fuel + 1, page_count, start =>
    if start ≤ page_count then
      (start, min (start + PAGES_PER_BATCH - 1) page_count) ::
        calcBatchesAux fuel page_count (start + PAGES_PER_BATCH)
    else []

/-- `GeminiCachedExtractor._calculate_batches` (lines 259-273). -/
def calculate_batches (page_count : Nat) : List (Nat × Nat) :=
  calcBatchesAux (page_count + 1) page_count 1

example : calculate_batches 7 = [(1, 2), (3, 4), (5, 6), (7, 7)] := by decide
example : calculate_batches 11 = [(1, 2), (3, 4), (5, 6), (7, 8), (9, 10), (11, 11)] := by
  decide

/-! ### Batch planner lemmas -/

theorem calcBatchesAux_past (fuel n s : Nat) (h : n < s) : calcBatchesAux fuel n s = [] := by
  cases fuel with
  | zero => rfl
  | succ fuel => simp only [calcBatchesAux, if_neg (by omega : ¬ s ≤ n)]

theorem calcBatchesAux_cover : ∀ (fuel n s : Nat), n + 1 - s ≤ fuel →
    (calcBatchesAux fuel n s).flatMap (fun b => List.range' b.1 (b.2 + 1 - b.1)) =
      List.range' s (n + 1 - s) := by
  intro fuel
  induction fuel with
  | zero =>
    intro n s h
    have h0 : n + 1 - s = 0 := by omega
    simp [calcBatchesAux, h0]
  | succ fuel ih =>
    intro n s h
    by_cases hs : s ≤ n
    · simp only [calcBatchesAux, PAGES_PER_BATCH, if_pos hs, List.flatMap_cons]
      rw [ih n (s + 2) (by omega)]
      by_cases h2 : s + 1 ≤ n
      · have hlen : min (s + 2 - 1) n + 1 - s = 2 := by omega
        rw [hlen]
        have happ := List.range'_append s 2 (n + 1 - (s + 2)) 1
        simp only [Nat.one_mul] at happ
        rw [happ]
        congr 1
        omega
      · have hlen : min (s + 2 - 1) n + 1 - s = 1 := by omega
        have hz : n + 1 - (s + 2) = 0 := by omega
        have ho : n + 1 - s = 1 := by omega
        rw [hlen, hz, ho]
        simp
    · rw [calcBatchesAux_past _ _ _ (by omega)]
      have h0 : n + 1 - s = 0 := by omega
      simp [h0]

theorem calcBatchesAux_mem : ∀ (fuel n s : Nat), ∀ b ∈ calcBatchesAux fuel n s,
    s ≤ b.1 ∧ b.1 ≤ n ∧ b.2 = min (b.1 + 1) n := by
  intro fuel
  induction fuel with
  | zero => intro n s b hb; simp [calcBatchesAux] at hb
  | succ fuel ih =>
    intro n s b hb
    by_cases hs : s ≤ n
    · simp only [calcBatchesAux, if_pos hs, List.mem_cons] at hb
      rcases hb with rfl | hb
      · refine ⟨le_refl _, hs, ?_⟩
        simp only [PAGES_PER_BATCH]
        omega
      · have h3 := ih n (s + PAGES_PER_BATCH) b hb
        simp only [PAGES_PER_BATCH] at h3
        exact ⟨by omega, h3.2.1, h3.2.2⟩
    · simp [calcBatchesAux, if_neg hs] at hb

theorem calcBatchesAux_sizes : ∀ (fuel n s : Nat), n + 1 - s ≤ fuel → s ≤ n →
    (∀ b ∈ (calcBatchesAux fuel n s).dropLast, b.2 + 1 - b.1 = 2) ∧
    (∃ l, (calcBatchesAux fuel n s).getLast? = some l ∧ l.2 = n ∧
          (l.2 + 1 - l.1 = 1 ∨ l.2 + 1 - l.1 = 2)) := by
  intro fuel
  induction fuel with
  | zero => intro n s h hs; omega
  | succ fuel ih =>
    intro n s h hs
    simp only [calcBatchesAux, PAGES_PER_BATCH, if_pos hs]
    by_cases h2 : s + 2 ≤ n
    · obtain ⟨hdrop, l, hlast, hl2, hsize⟩ := ih n (s + 2) (by omega) h2
      have hne : calcBatchesAux fuel n (s + 2) ≠ [] := by
        intro hnil
        rw [hnil] at hlast
        simp at hlast
      constructor
      · intro b hb
        rw [List.dropLast_cons_of_ne_nil hne, List.mem_cons] at hb
        rcases hb with rfl | hb
        · omega
        · exact hdrop b hb
      · refine ⟨l, ?_, hl2, hsize⟩
        obtain ⟨r, rest, hr⟩ : ∃ r rest, calcBatchesAux fuel n (s + 2) = r :: rest := by
          cases hcb : calcBatchesAux fuel n (s + 2) with
          | nil => exact absurd hcb hne
          | cons r rest => exact ⟨r, rest, rfl⟩
        rw [hr]
        rw [hr] at hlast
        exact hlast
    · rw [calcBatchesAux_past _ _ _ (by omega)]
      refine ⟨by simp, ⟨s, min (s + 2 - 1) n⟩, by simp, by omega, by omega⟩

theorem calcBatchesAux_chain : ∀ (fuel n s : Nat),
    List.Chain' (fun p q : Nat × Nat => p.1 < q.1) (calcBatchesAux fuel n s) := by
  intro fuel
  induction fuel with
  | zero => intro n s; simp [calcBatchesAux]
  | succ fuel ih =>
    intro n s
    by_cases hs : s ≤ n
    · simp only [calcBatchesAux, if_pos hs]
      rw [List.chain'_cons']
      refine ⟨?_, ih n (s + PAGES_PER_BATCH)⟩
      intro y hy
      have hmem := calcBatchesAux_mem fuel n (s + PAGES_PER_BATCH) y
        (List.mem_of_mem_head? hy)
      simp only [PAGES_PER_BATCH] at hmem
      omega
    · simp [calcBatchesAux, if_neg hs]

theorem calcBatchesAux_ne_nil (fuel n s : Nat) (h1 : s ≤ n) (h2 : 1 ≤ fuel) :
    calcBatchesAux fuel n s ≠ [] := by
  cases fuel with
  | zero => omega
  | succ fuel => simp [calcBatchesAux, if_pos h1]

theorem calculate_batches_ne_nil (n : Nat) (h : 1 ≤ n) : calculate_batches n ≠ [] :=
  calcBatchesAux_ne_nil (n + 1) n 1 h (by omega)

/-! ## Remote SDK model -/

/-- A Python exception thrown by a remote SDK call: its class name and its
`str(e)` message. -/
structure PyErr where
  typeName : String
  msg : String
deriving DecidableEq

/-- One candidate of a generation response; `finish_reason` is `none` when
the SDK reports a falsy finish reason, otherwise the enum member name. -/
structure Candidate where
  finish_reason : Option String
deriving DecidableEq

/-- `response.usage_metadata` fields; each may be `None`. -/
structure UsageMetadata where
  prompt_token_count : Option Nat
  candidates_token_count : Option Nat
  total_token_count : Option Nat
deriving DecidableEq

/-- A generation response as the extractor reads it. -/
structure GenResponse where
  candidates : List Candidate
  text : Option String
  usage_metadata : Option UsageMetadata
deriving DecidableEq

/-- The remote service as seen by one extraction call.  Calls that can be
made several times are indexed by how many calls of that kind were already
made, so the environment can drive every reachable path. -/
structure Env where
  probe : Except String Nat
  upload : Except PyErr Unit
  createCache : Nat → Except PyErr Unit
  genDirect : Except PyErr GenResponse
  genCached : Nat → Except PyErr GenResponse
  genUncached : Nat → Except PyErr GenResponse

/-- One remote invocation, recorded in program order. -/
inductive RemoteOp where
  | upload
  | createCache
  | genDirect
  | genCached (start_page end_page : Nat) (is_first : Bool)
  | genUncached (start_page end_page : Nat) (is_first : Bool)
  | deleteCache
  | deleteFile
deriving DecidableEq

/-- Occurrence count of one op in a trace. -/
def countOp (op : RemoteOp) : List RemoteOp → Nat
  | [] => 0
  | x :: xs => (if x = op then 1 else 0) + countOp op xs

/-! ## Direct extractor (`GeminiPDFExtractor`) -/

/-- The `reason_messages` lookup with its default (lines 165-173). -/
def reasonMessage (name : String) : String :=
  if name = "MAX_TOKENS" then "Response was truncated due to maximum token limit"
  else if name = "SAFETY" then "Response was blocked due to safety filters"
  else if name = "RECITATION" then "Response was blocked due to recitation concerns"
  else if name = "OTHER" then "Response generation stopped unexpectedly"
  else "Response incomplete (finish_reason: " ++ name ++ ")"

/-- `GeminiPDFExtractor._parse_response` (lines 154-194). -/
def parse_response (r : GenResponse) : ExtractionResult :=
  match r.candidates with
  | [] => { success := false, error := some "No response from Gemini API" }
  | candidate :: _ =>
    let abnormal : Option String :=
      match candidate.finish_reason with
      | none => none
      | some name =>
        if name = "STOP" ∨ name = "FINISH_REASON_UNSPECIFIED" then none else some name
    match abnormal with
    | some name => { success := false, error := some (reasonMessage name) }
    | none =>
      let text := r.text.getD ""
      if text = "" then { success := false, error := some "No text extracted from PDF" }
      else
        { success := true, text := some text,
          prompt_tokens := r.usage_metadata.bind (fun u => u.prompt_token_count),
          completion_tokens := r.usage_metadata.bind (fun u => u.candidates_token_count),
          total_tokens := r.usage_metadata.bind (fun u => u.total_token_count) }

/-- `GeminiPDFExtractor.extract_text` (lines 98-138), with the trace of
remote calls it makes. -/
def GeminiPDFExtractor.extract_text (env : Env) (pdf_bytes : List Nat) :
    ExtractionResult × List RemoteOp :=
  let v := validate_pdf_bytes pdf_bytes
  if v.1 = false then ({ success := false, error := some v.2 }, [])
  else
    match env.genDirect with
    | .error e =>
      ({ success := false,
         error := some ("Extraction failed: " ++ e.typeName ++ ": " ++ e.msg) },
       [.genDirect])
    | .ok r => (parse_response r, [.genDirect])

/-! ## Batch executor -/

/-- Result dict of one batch generation call (lines 512-516); token fields
are `none` when `usage_metadata` is present but the count is `None`. -/
structure BatchOutcome where
  text : String
  prompt_tokens : Option Nat
  completion_tokens : Option Nat
deriving DecidableEq

/-- Finish-reason check of `_generate_batch_with_cache` (lines 498-503). -/
def finishCheckCached (r : GenResponse) : Option String :=
  match r.candidates with
  | [] => none
  | candidate :: _ =>
    match candidate.finish_reason with
    | none => none
    | some name =>
      if name = "STOP" ∨ name = "FINISH_REASON_UNSPECIFIED" then none
      else some ("Response incomplete: " ++ name)

/-- Finish-reason check of `_generate_batch_without_cache` (lines 574-579),
a textual duplicate of the cached-mode check in the source. -/
def finishCheckUncached (r : GenResponse) : Option String :=
  match r.candidates with
  | [] => none
  | candidate :: _ =>
    match candidate.finish_reason with
    | none => none
    | some name =>
      if name = "STOP" ∨ name = "FINISH_REASON_UNSPECIFIED" then none
      else some ("Response incomplete: " ++ name)

/-- Response handling of `_generate_batch_with_cache` after the SDK call
returned (lines 498-516): finish check, text default, token extraction. -/
def processRespCached (r : GenResponse) : Except PyErr BatchOutcome :=
  match finishCheckCached r with
  | some m => .error { typeName := "ValueError", msg := m }
  | none =>
    .ok { text := r.text.getD "",
          prompt_tokens :=
            match r.usage_metadata with
            | none => some 0
            | some u => u.prompt_token_count,
          completion_tokens :=
            match r.usage_metadata with
            | none => some 0
            | some u => u.candidates_token_count }

/-- Response handling of `_generate_batch_without_cache` (lines 574-592),
a textual duplicate of the cached-mode handling in the source. -/
def processRespUncached (r : GenResponse) : Except PyErr BatchOutcome :=
  match finishCheckUncached r with
  | some m => .error { typeName := "ValueError", msg := m }
  | none =>
    .ok { text := r.text.getD "",
          prompt_tokens :=
            match r.usage_metadata with
            | none => some 0
            | some u => u.prompt_token_count,
          completion_tokens :=
            match r.usage_metadata with
            | none => some 0
            | some u => u.candidates_token_count }

/-- Exceptions escaping `_generate_batch_with_cache`: the module's
`CacheExpiredError` (carrying its message) or any other Python error. -/
inductive BatchErr where
  | cacheExpired (msg : String)
  | py (e : PyErr)
deriving DecidableEq

/-- `GeminiCachedExtractor._generate_batch_with_cache` (lines 442-516):
the SDK call (indexed by the cached-generation call counter), the
substring classification of SDK errors into `CacheExpiredError`, and the
response handling. -/
def generate_batch_with_cache (env : Env) (genCount : Nat) :
    Except BatchErr BatchOutcome :=
  match env.genCached genCount with
  | .error e =>
    if isCacheMsg e.msg then
      .error (.cacheExpired ("Cache expired or invalid: " ++ e.msg))
    else .error (.py e)
  | .ok r =>
    match processRespCached r with
    | .error e => .error (.py e)
    | .ok out => .ok out

/-- `GeminiCachedExtractor._generate_batch_without_cache` (lines 518-592). -/
def generate_batch_without_cache (env : Env) (genCount : Nat) :
    Except PyErr BatchOutcome :=
  match env.genUncached genCount with
  | .error e => .error e
  | .ok r => processRespUncached r

/-! ## Extraction orchestrator (`GeminiCachedExtractor`) -/

/-- How the batched loops abort: an uncaught `CacheExpiredError` (only from
the retried cached call, line 335) or any other Python exception
(line 337). -/
inductive LoopExit where
  | cacheErr (msg : String)
  | pyExit (typeName msg : String)
deriving DecidableEq

/-- `total += value` where the dict value may be Python `None`
(`TypeError` at lines 317-318 / 372-373 in that case). -/
def addTok (acc : Nat) (x : Option Nat) : Except PyErr Nat :=
  match x with
  | some k => .ok (acc + k)
  | none =>
    .error { typeName := "TypeError",
             msg := "unsupported operand types for int += NoneType" }

/-- One iteration of the cached batch loop (lines 304-318): the generation
call, the `except CacheExpiredError` recreate-and-retry handler, and the
ops it performs.  On success it returns the batch outcome together with the
updated cached-generation and cache-creation call counters. -/
def cachedBatchStep (env : Env) (genCount createCount s e : Nat) (isFirst : Bool) :
    List RemoteOp × Except LoopExit (BatchOutcome × Nat × Nat) :=
  match generate_batch_with_cache env genCount with
  | .ok out => ([.genCached s e isFirst], .ok (out, genCount + 1, createCount))
  | .error (.py pe) => ([.genCached s e isFirst], .error (.pyExit pe.typeName pe.msg))
  | .error (.cacheExpired _) =>
    match env.createCache createCount with
    | .error pe =>
      ([.genCached s e isFirst, .createCache], .error (.pyExit pe.typeName pe.msg))
    | .ok _ =>
      match generate_batch_with_cache env (genCount + 1) with
      | .ok out =>
        ([.genCached s e isFirst, .createCache, .genCached s e isFirst],
         .ok (out, genCount + 2, createCount + 1))
      | .error (.cacheExpired m) =>
        ([.genCached s e isFirst, .createCache, .genCached s e isFirst],
         .error (.cacheErr m))
      | .error (.py pe) =>
        ([.genCached s e isFirst, .createCache, .genCached s e isFirst],
         .error (.pyExit pe.typeName pe.msg))

/-- The cached batch loop (lines 299-318) over the remaining batches;
carries the batch index, the two call counters, the insertion-ordered
`results` dict and the running token sums. -/
def cachedLoop (env : Env) :
    List (Nat × Nat) → Nat → Nat → Nat → List ((Nat × Nat) × String) → Nat → Nat →
    List RemoteOp × Except LoopExit (List ((Nat × Nat) × String) × Nat × Nat)
  | [], _, _, _, acc, pt, ct => ([], .ok (acc, pt, ct))
  | (s, e) :: rest, batchIdx, genCount, createCount, acc, pt, ct =>
    match cachedBatchStep env genCount createCount s e (batchIdx == 0) with
    | (ops, .error ex) => (ops, .error ex)
    | (ops, .ok (out, genCount', createCount')) =>
      let acc' := acc ++ [((s, e), out.text)]
      match addTok pt out.prompt_tokens with
      | .error pe => (ops, .error (.pyExit pe.typeName pe.msg))
      | .ok pt' =>
        match addTok ct out.completion_tokens with
        | .error pe => (ops, .error (.pyExit pe.typeName pe.msg))
        | .ok ct' =>
          let next := cachedLoop env rest (batchIdx + 1) genCount' createCount' acc' pt' ct'
          (ops ++ next.1, next.2)

/-- The uncached batch loop (lines 361-373). -/
def uncachedLoop (env : Env) :
    List (Nat × Nat) → Nat → Nat → List ((Nat × Nat) × String) → Nat → Nat →
    List RemoteOp × Except LoopExit (List ((Nat × Nat) × String) × Nat × Nat)
  | [], _, _, acc, pt, ct => ([], .ok (acc, pt, ct))
  | (s, e) :: rest, batchIdx, genCount, acc, pt, ct =>
    match generate_batch_without_cache env genCount with
    | .error pe => ([.genUncached s e (batchIdx == 0)], .error (.pyExit pe.typeName pe.msg))
    | .ok out =>
      let acc' := acc ++ [((s, e), out.text)]
      match addTok pt out.prompt_tokens with
      | .error pe => ([.genUncached s e (batchIdx == 0)], .error (.pyExit pe.typeName pe.msg))
      | .ok pt' =>
        match addTok ct out.completion_tokens with
        | .error pe =>
          ([.genUncached s e (batchIdx == 0)], .error (.pyExit pe.typeName pe.msg))
        | .ok ct' =>
          let next := uncachedLoop env rest (batchIdx + 1) (genCount + 1) acc' pt' ct'
          (RemoteOp.genUncached s e (batchIdx == 0) :: next.1, next.2)

/-- The `f"## Pages {start}-{end}\n{text}"` label of one batch entry
(lines 321-323). -/
def batchLabel (s e : Nat) (text : String) : String :=
  "## Pages " ++ toString s ++ "-" ++ toString e ++ "\n" ++ text

/-- Python `"\n\n".join`. -/
def joinBlank : List String → String
  | [] => ""
  | [x] => x
  | x :: y :: rest => x ++ "\n\n" ++ joinBlank (y :: rest)

/-- `combined_text` built from the insertion-ordered results dict
(lines 321-323 / 376-378). -/
def combineResults (results : List ((Nat × Nat) × String)) : String :=
  joinBlank (results.map (fun r => batchLabel r.1.1 r.1.2 r.2))

/-- `GeminiCachedExtractor._extract_batched_without_cache` (lines 349-398),
including its own `finally` that deletes the uploaded file. -/
def extract_batched_without_cache (env : Env) (page_count : Nat) :
    ExtractionResult × List RemoteOp :=
  let batches := calculate_batches page_count
  match uncachedLoop env batches 0 0 [] 0 0 with
  | (ops, .ok (results, pt, ct)) =>
    ({ success := true, text := some (combineResults results),
       prompt_tokens := some pt, completion_tokens := some ct,
       total_tokens := some (pt + ct), page_count := some page_count,
       used_caching := false },
     ops ++ [.deleteFile])
  | (ops, .error (.pyExit tname m)) =>
    ({ success := false,
       error := some ("Batched extraction failed: " ++ tname ++ ": " ++ m) },
     ops ++ [.deleteFile])
  | (ops, .error (.cacheErr m)) =>
    ({ success := false,
       error := some ("Batched extraction failed: CacheExpiredError: " ++ m) },
     ops ++ [.deleteFile])

/-- `GeminiCachedExtractor._extract_large_pdf` (lines 275-347): upload,
cache creation with the ineligibility fallback, the cached batch loop, the
two `except` clauses, and the `finally` cleanup.  The fallback return value
passes through the outer `finally` as well (lines 342-347), which deletes
the uploaded file a second time. -/
def extract_large_pdf (env : Env) (page_count : Nat) :
    ExtractionResult × List RemoteOp :=
  match env.upload with
  | .error e =>
    ({ success := false,
       error := some ("Extraction failed: " ++ e.typeName ++ ": " ++ e.msg) },
     [.upload])
  | .ok _ =>
    match env.createCache 0 with
    | .error e =>
      if isFallbackMsg e.msg then
        let inner := extract_batched_without_cache env page_count
        (inner.1, [.upload, .createCache] ++ inner.2 ++ [.deleteFile])
      else
        ({ success := false,
           error := some ("Extraction failed: " ++ e.typeName ++ ": " ++ e.msg) },
         [.upload, .createCache, .deleteFile])
    | .ok _ =>
      let batches := calculate_batches page_count
      match cachedLoop env batches 0 0 1 [] 0 0 with
      | (ops, .ok (results, pt, ct)) =>
        ({ success := true, text := some (combineResults results),
           prompt_tokens := some pt, completion_tokens := some ct,
           total_tokens := some (pt + ct), page_count := some page_count,
           used_caching := true },
         [.upload, .createCache] ++ ops ++ [.deleteCache, .deleteFile])
      | (ops, .error (.cacheErr m)) =>
        ({ success := false, error := some ("Cache error: " ++ m) },
         [.upload, .createCache] ++ ops ++ [.deleteCache, .deleteFile])
      | (ops, .error (.pyExit tname m)) =>
        ({ success := false,
           error := some ("Extraction failed: " ++ tname ++ ": " ++ m) },
         [.upload, .createCache] ++ ops ++ [.deleteCache, .deleteFile])

/-- `GeminiCachedExtractor.extract_text` (lines 226-257): validation,
page-count probe, strategy selection. -/
def GeminiCachedExtractor.extract_text (env : Env) (pdf_bytes : List Nat) :
    ExtractionResult × List RemoteOp :=
  let v := validate_pdf_bytes pdf_bytes
  if v.1 = false then ({ success := false, error := some v.2 }, [])
  else
    match env.probe with
    | .error e => ({ success := false, error := some ("Failed to read PDF: " ++ e) }, [])
    | .ok page_count =>
      if page_count ≤ LARGE_PDF_THRESHOLD then
        let inner := GeminiPDFExtractor.extract_text env pdf_bytes
        ({ inner.1 with page_count := some page_count, used_caching := false }, inner.2)
      else extract_large_pdf env page_count

/-! ## Concrete fixtures -/

/-- A candidate that stopped normally. -/
def stopCandidate : Candidate := { finish_reason := some "STOP" }

/-- Fully populated token usage. -/
def goodUsage : UsageMetadata :=
  { prompt_token_count := some 100, candidates_token_count := some 50,
    total_token_count := some 150 }

/-- A normal, non-empty response. -/
def goodResp : GenResponse :=
  { candidates := [stopCandidate], text := some "| row |", usage_metadata := some goodUsage }

/-- A normal response whose extracted text is empty. -/
def emptyTextResp : GenResponse :=
  { candidates := [stopCandidate], text := some "", usage_metadata := some goodUsage }

/-- Bytes beginning with `%PDF-`. -/
def validPdfBytes : List Nat := [37, 80, 68, 70, 45, 49]

/-- A 6-page document; every remote call succeeds, caching works. -/
def envHappy : Env :=
  { probe := .ok 6, upload := .ok (), createCache := fun _ => .ok (),
    genDirect := .ok goodResp, genCached := fun _ => .ok goodResp,
    genUncached := fun _ => .ok goodResp }

/-- A 6-page document; cache creation always fails with the minimum-token
ineligibility message, so the extractor falls back to uncached batching. -/
def envFallback : Env :=
  { probe := .ok 6, upload := .ok (),
    createCache := fun _ =>
      .error { typeName := "ClientError",
               msg := "Cached content is too small; total token count is below the minimum" },
    genDirect := .ok goodResp, genCached := fun _ => .ok goodResp,
    genUncached := fun _ => .ok goodResp }

/-- A 6-page document; every cached generation call reports the cache as
gone, so the first batch expires, is retried once, and expires again. -/
def envExpireTwice : Env :=
  { probe := .ok 6, upload := .ok (), createCache := fun _ => .ok (),
    genDirect := .ok goodResp,
    genCached := fun _ => .error { typeName := "ClientError", msg := "cached content not found" },
    genUncached := fun _ => .ok goodResp }

/-- A 6-page document; the first cached generation call fails with an
error unrelated to caching. -/
def envBatchFail : Env :=
  { probe := .ok 6, upload := .ok (), createCache := fun _ => .ok (),
    genDirect := .ok goodResp,
    genCached := fun _ => .error { typeName := "ServerError", msg := "boom" },
    genUncached := fun _ => .ok goodResp }

/-- A 6-page document whose batch responses all carry empty text. -/
def envEmptyText : Env :=
  { probe := .ok 6, upload := .ok (), createCache := fun _ => .ok (),
    genDirect := .ok emptyTextResp, genCached := fun _ => .ok emptyTextResp,
    genUncached := fun _ => .ok emptyTextResp }

/-- A 3-page document; every remote call succeeds. -/
def envSmall : Env :=
  { probe := .ok 3, upload := .ok (), createCache := fun _ => .ok (),
    genDirect := .ok goodResp, genCached := fun _ => .ok goodResp,
    genUncached := fun _ => .ok goodResp }

/-! ## Trace and loop lemmas -/

theorem countOp_append (op : RemoteOp) (l1 l2 : List RemoteOp) :
    countOp op (l1 ++ l2) = countOp op l1 + countOp op l2 := by
  induction l1 with
  | nil => simp [countOp]
  | cons x xs ih => simp [countOp, ih]; omega

theorem cachedBatchStep_no_deletes (env : Env) (g c s e : Nat) (f : Bool) :
    countOp .deleteCache (cachedBatchStep env g c s e f).1 = 0 ∧
    countOp .deleteFile (cachedBatchStep env g c s e f).1 = 0 := by
  unfold cachedBatchStep
  cases h1 : generate_batch_with_cache env g with
  | ok out => simp [countOp]
  | error be =>
    cases be with
    | py pe => simp [countOp]
    | cacheExpired m =>
      cases h2 : env.createCache c with
      | error pe => simp [countOp]
      | ok u =>
        cases h3 : generate_batch_with_cache env (g + 1) with
        | ok out => simp [countOp]
        | error be2 => cases be2 <;> simp [countOp]

theorem cachedLoop_no_deletes (env : Env) : ∀ (bs : List (Nat × Nat)) (i g c : Nat)
    (acc : List ((Nat × Nat) × String)) (pt ct : Nat),
    countOp .deleteCache (cachedLoop env bs i g c acc pt ct).1 = 0 ∧
    countOp .deleteFile (cachedLoop env bs i g c acc pt ct).1 = 0 := by
  intro bs
  induction bs with
  | nil => intro i g c acc pt ct; simp [cachedLoop, countOp]
  | cons b rest ih =>
    intro i g c acc pt ct
    obtain ⟨s, e⟩ := b
    have hstep := cachedBatchStep_no_deletes env g c s e (i == 0)
    cases hs : cachedBatchStep env g c s e (i == 0) with
    | mk ops r =>
      rw [hs] at hstep
      have hstep1 : countOp RemoteOp.deleteCache ops = 0 := hstep.1
      have hstep2 : countOp RemoteOp.deleteFile ops = 0 := hstep.2
      cases r with
      | error ex =>
        simp only [cachedLoop, hs]
        exact ⟨hstep1, hstep2⟩
      | ok v =>
        obtain ⟨out, g', c'⟩ := v
        cases h1 : addTok pt out.prompt_tokens with
        | error pe =>
          simp only [cachedLoop, hs, h1]
          exact ⟨hstep1, hstep2⟩
        | ok pt' =>
          cases h2 : addTok ct out.completion_tokens with
          | error pe =>
            simp only [cachedLoop, hs, h1, h2]
            exact ⟨hstep1, hstep2⟩
          | ok ct' =>
            have hrest := ih (i + 1) g' c' (acc ++ [((s, e), out.text)]) pt' ct'
            simp only [cachedLoop, hs, h1, h2]
            constructor <;> simp [countOp_append, hstep1, hstep2, hrest.1, hrest.2]

theorem uncachedLoop_no_deletes (env : Env) : ∀ (bs : List (Nat × Nat)) (i g : Nat)
    (acc : List ((Nat × Nat) × String)) (pt ct : Nat),
    countOp .deleteCache (uncachedLoop env bs i g acc pt ct).1 = 0 ∧
    countOp .deleteFile (uncachedLoop env bs i g acc pt ct).1 = 0 := by
  intro bs
  induction bs with
  | nil => intro i g acc pt ct; simp [uncachedLoop, countOp]
  | cons b rest ih =>
    intro i g acc pt ct
    obtain ⟨s, e⟩ := b
    cases hg : generate_batch_without_cache env g with
    | error pe => simp [uncachedLoop, hg, countOp]
    | ok out =>
      cases h1 : addTok pt out.prompt_tokens with
      | error pe => simp [uncachedLoop, hg, h1, countOp]
      | ok pt' =>
        cases h2 : addTok ct out.completion_tokens with
        | error pe => simp [uncachedLoop, hg, h1, h2, countOp]
        | ok ct' =>
          have hrest := ih (i + 1) (g + 1) (acc ++ [((s, e), out.text)]) pt' ct'
          simp only [uncachedLoop, hg, h1, h2]
          constructor <;> simp [countOp, hrest.1, hrest.2]

theorem cachedLoop_ok_results (env : Env) : ∀ (bs : List (Nat × Nat)) (i g c : Nat)
    (acc : List ((Nat × Nat) × String)) (pt ct : Nat)
    (tr : List RemoteOp) (res : List ((Nat × Nat) × String)) (pt' ct' : Nat),
    cachedLoop env bs i g c acc pt ct = (tr, .ok (res, pt', ct')) →
    ∃ tail, res = acc ++ tail ∧ tail.map Prod.fst = bs := by
  intro bs
  induction bs with
  | nil =>
    intro i g c acc pt ct tr res pt' ct' hloop
    simp only [cachedLoop, Prod.mk.injEq, Except.ok.injEq] at hloop
    exact ⟨[], by simp [hloop.2.1.symm], rfl⟩
  | cons b rest ih =>
    intro i g c acc pt ct tr res pt' ct' hloop
    obtain ⟨s, e⟩ := b
    cases hs : cachedBatchStep env g c s e (i == 0) with
    | mk ops r =>
      cases r with
      | error ex => simp [cachedLoop, hs] at hloop
      | ok v =>
        obtain ⟨out, g', c'⟩ := v
        cases h1 : addTok pt out.prompt_tokens with
        | error pe => simp [cachedLoop, hs, h1] at hloop
        | ok pt1 =>
          cases h2 : addTok ct out.completion_tokens with
          | error pe => simp [cachedLoop, hs, h1, h2] at hloop
          | ok ct1 =>
            simp only [cachedLoop, hs, h1, h2, Prod.mk.injEq] at hloop
            obtain ⟨tail, htail, hmap⟩ := ih (i + 1) g' c' (acc ++ [((s, e), out.text)])
              pt1 ct1 _ res pt' ct' (by
                rw [Prod.ext_iff]
                exact ⟨rfl, hloop.2⟩)
            refine ⟨((s, e), out.text) :: tail, ?_, by simp [hmap]⟩
            rw [htail]
            simp

theorem uncachedLoop_ok_results (env : Env) : ∀ (bs : List (Nat × Nat)) (i g : Nat)
    (acc : List ((Nat × Nat) × String)) (pt ct : Nat)
    (tr : List RemoteOp) (res : List ((Nat × Nat) × String)) (pt' ct' : Nat),
    uncachedLoop env bs i g acc pt ct = (tr, .ok (res, pt', ct')) →
    ∃ tail, res = acc ++ tail ∧ tail.map Prod.fst = bs := by
  intro bs
  induction bs with
  | nil =>
    intro i g acc pt ct tr res pt' ct' hloop
    simp only [uncachedLoop, Prod.mk.injEq, Except.ok.injEq] at hloop
    exact ⟨[], by simp [hloop.2.1.symm], rfl⟩
  | cons b rest ih =>
    intro i g acc pt ct tr res pt' ct' hloop
    obtain ⟨s, e⟩ := b
    cases hg : generate_batch_without_cache env g with
    | error pe => simp [uncachedLoop, hg] at hloop
    | ok out =>
      cases h1 : addTok pt out.prompt_tokens with
      | error pe => simp [uncachedLoop, hg, h1] at hloop
      | ok pt1 =>
        cases h2 : addTok ct out.completion_tokens with
        | error pe => simp [uncachedLoop, hg, h1, h2] at hloop
        | ok ct1 =>
          simp only [uncachedLoop, hg, h1, h2, Prod.mk.injEq] at hloop
          obtain ⟨tail, htail, hmap⟩ := ih (i + 1) (g + 1) (acc ++ [((s, e), out.text)])
            pt1 ct1 _ res pt' ct' (by
              rw [Prod.ext_iff]
              exact ⟨rfl, hloop.2⟩)
          refine ⟨((s, e), out.text) :: tail, ?_, by simp [hmap]⟩
          rw [htail]
          simp

/-! ## String lemmas -/

theorem batchLabel_length (s e : Nat) (t : String) : (batchLabel s e t).length ≠ 0 := by
  simp only [batchLabel, String.length_append]
  have h9 : ("## Pages " : String).length = 9 := rfl
  omega

theorem joinBlank_ne_empty (x : String) (xs : List String) (hx : x.length ≠ 0) :
    joinBlank (x :: xs) ≠ "" := by
  cases xs with
  | nil =>
    intro hc
    rw [joinBlank] at hc
    subst hc
    exact hx rfl
  | cons y rest =>
    intro hc
    have hlen := congrArg String.length hc
    simp only [joinBlank, String.length_append] at hlen
    have h2 : ("\n\n" : String).length = 2 := rfl
    have h0 : ("" : String).length = 0 := rfl
    omega

theorem combineResults_ne_empty (r : (Nat × Nat) × String)
    (rest : List ((Nat × Nat) × String)) : combineResults (r :: rest) ≠ "" := by
  simp only [combineResults, List.map_cons]
  exact joinBlank_ne_empty _ _ (batchLabel_length r.1.1 r.1.2 r.2)

/-! ## Claims -/

theorem extract_batched_without_cache_deletes (env : Env) (n : Nat) :
    countOp .deleteCache (extract_batched_without_cache env n).2 = 0 ∧
    countOp .deleteFile (extract_batched_without_cache env n).2 = 1 := by
  have hloop := uncachedLoop_no_deletes env (calculate_batches n) 0 0 [] 0 0
  cases hl : uncachedLoop env (calculate_batches n) 0 0 [] 0 0 with
  | mk ops r =>
    rw [hl] at hloop
    have h1 : countOp RemoteOp.deleteCache ops = 0 := hloop.1
    have h2 : countOp RemoteOp.deleteFile ops = 0 := hloop.2
    cases r with
    | ok v =>
      obtain ⟨res, pt, ct⟩ := v
      simp [extract_batched_without_cache, hl, countOp_append, countOp, h1, h2]
    | error ex =>
      cases ex with
      | cacheErr m => simp [extract_batched_without_cache, hl, countOp_append, countOp, h1, h2]
      | pyExit t m => simp [extract_batched_without_cache, hl, countOp_append, countOp, h1, h2]

theorem extract_text_large (env : Env) (b : List Nat) (n : Nat)
    (hv : (validate_pdf_bytes b).1 = true) (hp : env.probe = .ok n) (hn : 5 < n) :
    GeminiCachedExtractor.extract_text env b = extract_large_pdf env n := by
  simp only [GeminiCachedExtractor.extract_text, hv, hp, Bool.true_eq_false, if_false]
  rw [if_neg (by simp only [LARGE_PDF_THRESHOLD]; omega)]

/-- C1 (amended): in batched extraction, `delete_cache` is invoked exactly
once if a cache was created and the cache is deleted immediately before
the document; `delete_document` is invoked exactly once on the success,
classified-failure and unclassified-exception paths — but on the path
where cache creation fails with an ineligibility message and the
extractor falls back to uncached batching, `delete_document` is invoked
twice (once by the fallback's own cleanup, once again by the outer
cleanup), and when the upload itself fails neither deletion is invoked. -/
theorem cleanup_exactly_once (env : Env) (b : List Nat) (n : Nat)
    (hv : (validate_pdf_bytes b).1 = true) (hp : env.probe = .ok n) (hn : 5 < n) :
    (∀ e, env.upload = .error e →
      countOp .deleteCache (GeminiCachedExtractor.extract_text env b).2 = 0 ∧
      countOp .deleteFile (GeminiCachedExtractor.extract_text env b).2 = 0)
    ∧ (env.upload = .ok () → env.createCache 0 = .ok () →
      countOp .deleteCache (GeminiCachedExtractor.extract_text env b).2 = 1 ∧
      countOp .deleteFile (GeminiCachedExtractor.extract_text env b).2 = 1 ∧
      ∃ l, (GeminiCachedExtractor.extract_text env b).2 = l ++ [.deleteCache, .deleteFile])
    ∧ (∀ e, env.upload = .ok () → env.createCache 0 = .error e →
      isFallbackMsg e.msg = true →
      countOp .deleteCache (GeminiCachedExtractor.extract_text env b).2 = 0 ∧
      countOp .deleteFile (GeminiCachedExtractor.extract_text env b).2 = 2)
    ∧ (∀ e, env.upload = .ok () → env.createCache 0 = .error e →
      isFallbackMsg e.msg = false →
      countOp .deleteCache (GeminiCachedExtractor.extract_text env b).2 = 0 ∧
      countOp .deleteFile (GeminiCachedExtractor.extract_text env b).2 = 1) := by
  rw [extract_text_large env b n hv hp hn]
  refine ⟨?_, ?_, ?_, ?_⟩
  · intro e he
    simp [extract_large_pdf, he, countOp]
  · intro hu hc
    have hloop := cachedLoop_no_deletes env (calculate_batches n) 0 0 1 [] 0 0
    cases hl : cachedLoop env (calculate_batches n) 0 0 1 [] 0 0 with
    | mk ops r =>
      rw [hl] at hloop
      have h1 : countOp RemoteOp.deleteCache ops = 0 := hloop.1
      have h2 : countOp RemoteOp.deleteFile ops = 0 := hloop.2
      cases r with
      | ok v =>
        obtain ⟨res, pt, ct⟩ := v
        refine ⟨?_, ?_, [.upload, .createCache] ++ ops, ?_⟩ <;>
          simp [extract_large_pdf, hu, hc, hl, countOp_append, countOp, h1, h2]
      | error ex =>
        cases ex with
        | cacheErr m =>
          refine ⟨?_, ?_, [.upload, .createCache] ++ ops, ?_⟩ <;>
            simp [extract_large_pdf, hu, hc, hl, countOp_append, countOp, h1, h2]
        | pyExit t m =>
          refine ⟨?_, ?_, [.upload, .createCache] ++ ops, ?_⟩ <;>
            simp [extract_large_pdf, hu, hc, hl, countOp_append, countOp, h1, h2]
  · intro e hu hc hf
    have hin := extract_batched_without_cache_deletes env n
    simp [extract_large_pdf, hu, hc, hf, countOp_append, countOp, hin.1, hin.2]
  · intro e hu hc hf
    simp [extract_large_pdf, hu, hc, hf, countOp]

/-- Witness for C1 on the cache-created path: the happy-path trace deletes
the cache once, then the document once, at the very end. -/
theorem cleanup_exactly_once_witness :
    countOp .deleteCache (GeminiCachedExtractor.extract_text envHappy validPdfBytes).2 = 1 ∧
    countOp .deleteFile (GeminiCachedExtractor.extract_text envHappy validPdfBytes).2 = 1 :=
  ⟨((cleanup_exactly_once envHappy validPdfBytes 6 rfl rfl (by omega)).2.1 rfl rfl).1,
   ((cleanup_exactly_once envHappy validPdfBytes 6 rfl rfl (by omega)).2.1 rfl rfl).2.1⟩

/-- C1 counterexample: on the fallback path (cache creation fails with the
minimum-token message) the uploaded document is deleted twice, not exactly
once. -/
theorem cleanup_exactly_once_cex :
    countOp .deleteFile (GeminiCachedExtractor.extract_text envFallback validPdfBytes).2 = 2
    ∧ ¬ countOp .deleteFile
        (GeminiCachedExtractor.extract_text envFallback validPdfBytes).2 = 1 := by
  constructor
  · rfl
  · decide

/-- C3: for every `page_count ≥ 1`, the batch planner with batch size 2
returns an ordered list of 1-indexed inclusive pairs whose page ranges
concatenate, in order, to exactly `[1, page_count]` (so they are
contiguous, non-overlapping, gap-free and covering); every batch except
possibly the last has exactly 2 pages, the last batch ends at `page_count`
and has 1 or 2 pages; and `page_count = 7` yields `(1,2)(3,4)(5,6)(7,7)`. -/
theorem batch_planner_correct (n : Nat) (h : 1 ≤ n) :
    ((calculate_batches n).flatMap fun b => List.range' b.1 (b.2 + 1 - b.1)) =
      List.range' 1 n
    ∧ (∀ b ∈ (calculate_batches n).dropLast, b.2 + 1 - b.1 = 2)
    ∧ (∃ l, (calculate_batches n).getLast? = some l ∧ l.2 = n ∧
        (l.2 + 1 - l.1 = 1 ∨ l.2 + 1 - l.1 = 2))
    ∧ (∀ b ∈ calculate_batches n, 1 ≤ b.1 ∧ b.1 ≤ b.2 ∧ b.2 ≤ n)
    ∧ calculate_batches 7 = [(1, 2), (3, 4), (5, 6), (7, 7)] := by
  have hc := calcBatchesAux_cover (n + 1) n 1 (by omega)
  have hsz := calcBatchesAux_sizes (n + 1) n 1 (by omega) h
  refine ⟨?_, hsz.1, hsz.2, ?_, by decide⟩
  · have hn : n + 1 - 1 = n := by omega
    rw [calculate_batches, hc, hn]
  · intro b hb
    have hm := calcBatchesAux_mem (n + 1) n 1 b hb
    omega

/-- Witness for C3 at `page_count = 7`. -/
theorem batch_planner_correct_witness :
    calculate_batches 7 = [(1, 2), (3, 4), (5, 6), (7, 7)] :=
  (batch_planner_correct 7 (by decide)).2.2.2.2

/-- C2: when a cached batch generation call fails as `CacheExpired`, the
orchestrator recreates the cache exactly once and retries that same batch
exactly once with the same page range and the same first-batch flag; if
the retried call fails as `CacheExpired` again the loop aborts and the
whole extraction returns `success = false` with only a `Cache error`
message — the texts of batches already completed are discarded. -/
theorem cache_expiry_retry (env : Env) (g c s e : Nat) (f : Bool) (pe : PyErr)
    (h1 : env.genCached g = .error pe) (h2 : isCacheMsg pe.msg = true) :
    (env.createCache c = .ok () →
      (cachedBatchStep env g c s e f).1 =
        [.genCached s e f, .createCache, .genCached s e f])
    ∧ (∀ pe2, env.createCache c = .ok () → env.genCached (g + 1) = .error pe2 →
        isCacheMsg pe2.msg = true →
        (cachedBatchStep env g c s e f).2 =
          .error (.cacheErr ("Cache expired or invalid: " ++ pe2.msg)))
    ∧ (∀ (n : Nat) (m : String) (tr : List RemoteOp),
        env.upload = .ok () → env.createCache 0 = .ok () →
        cachedLoop env (calculate_batches n) 0 0 1 [] 0 0 = (tr, .error (.cacheErr m)) →
        (extract_large_pdf env n).1 =
          { success := false, error := some ("Cache error: " ++ m) }) := by
  have hfirst : generate_batch_with_cache env g =
      .error (.cacheExpired ("Cache expired or invalid: " ++ pe.msg)) := by
    simp [generate_batch_with_cache, h1, h2]
  refine ⟨?_, ?_, ?_⟩
  · intro hcc
    cases h3 : generate_batch_with_cache env (g + 1) with
    | ok out => simp [cachedBatchStep, hfirst, hcc, h3]
    | error be => cases be <;> simp [cachedBatchStep, hfirst, hcc, h3]
  · intro pe2 hcc hg2 hm2
    have hretry : generate_batch_with_cache env (g + 1) =
        .error (.cacheExpired ("Cache expired or invalid: " ++ pe2.msg)) := by
      simp [generate_batch_with_cache, hg2, hm2]
    simp [cachedBatchStep, hfirst, hcc, hretry]
  · intro n m tr hu hc0 hloop
    simp [extract_large_pdf, hu, hc0, hloop]

/-- Witness for C2 on `envExpireTwice`: batch (1,2) gets exactly one cache
recreation and one retried call, and the second expiry aborts the whole
extraction with `success = false` and no text. -/
theorem cache_expiry_retry_witness :
    (cachedBatchStep envExpireTwice 0 1 1 2 true).1 =
      [.genCached 1 2 true, .createCache, .genCached 1 2 true]
    ∧ (extract_large_pdf envExpireTwice 6).1 =
      { success := false,
        error := some "Cache error: Cache expired or invalid: cached content not found" } := by
  have h := cache_expiry_retry envExpireTwice 0 1 1 2 true
    { typeName := "ClientError", msg := "cached content not found" } rfl (by decide)
  exact ⟨h.1 rfl,
    h.2.2 6 "Cache expired or invalid: cached content not found"
      [.genCached 1 2 true, .createCache, .genCached 1 2 true] rfl rfl rfl⟩

theorem extract_large_pdf_head (env : Env) (n : Nat) :
    (extract_large_pdf env n).2.head? = some .upload := by
  cases hu : env.upload with
  | error e => simp [extract_large_pdf, hu]
  | ok u =>
    cases hc : env.createCache 0 with
    | error e =>
      by_cases hf : isFallbackMsg e.msg = true
      · simp [extract_large_pdf, hu, hc, hf]
      · simp [extract_large_pdf, hu, hc, if_neg hf]
    | ok u2 =>
      cases hl : cachedLoop env (calculate_batches n) 0 0 1 [] 0 0 with
      | mk ops r =>
        cases r with
        | ok v =>
          obtain ⟨res, pt, ct⟩ := v
          simp [extract_large_pdf, hu, hc, hl]
        | error ex => cases ex <;> simp [extract_large_pdf, hu, hc, hl]

/-- C4: for a valid document, a probed page count of at most 5 makes
`extract_text` perform exactly one direct whole-document generation call
and nothing else (no upload, no cache creation); a page count greater
than 5 makes the upload the very first remote call, before any
generation call. -/
theorem strategy_selection (env : Env) (b : List Nat) (n : Nat)
    (hv : (validate_pdf_bytes b).1 = true) (hp : env.probe = .ok n) :
    (n ≤ 5 → (GeminiCachedExtractor.extract_text env b).2 = [.genDirect])
    ∧ (5 < n → (GeminiCachedExtractor.extract_text env b).2.head? = some .upload) := by
  constructor
  · intro hn
    simp only [GeminiCachedExtractor.extract_text, hv, hp, Bool.true_eq_false, if_false]
    rw [if_pos (by simp only [LARGE_PDF_THRESHOLD]; omega)]
    cases hd : env.genDirect <;> simp [GeminiPDFExtractor.extract_text, hv, hd]
  · intro hn
    rw [extract_text_large env b n hv hp hn]
    exact extract_large_pdf_head env n

/-- Witness for C4 at a 3-page and a 6-page document. -/
theorem strategy_selection_witness :
    (GeminiCachedExtractor.extract_text envSmall validPdfBytes).2 = [.genDirect]
    ∧ (GeminiCachedExtractor.extract_text envHappy validPdfBytes).2.head? = some .upload :=
  ⟨(strategy_selection envSmall validPdfBytes 3 rfl rfl).1 (by omega),
   (strategy_selection envHappy validPdfBytes 6 rfl rfl).2 (by omega)⟩

/-- C6 (amended): empty input is rejected with `"File is empty"`;
non-empty input lacking the `%PDF-` signature is rejected with
`"File is not a valid PDF"` (which mentions "not a valid"); in both cases
`success = false` and no remote call is made, for both entry points. -/
theorem invalid_input_rejected (env : Env) (b : List Nat) :
    (b = [] →
      GeminiCachedExtractor.extract_text env b =
        ({ success := false, error := some "File is empty" }, [])
      ∧ GeminiPDFExtractor.extract_text env b =
        ({ success := false, error := some "File is empty" }, []))
    ∧ (b ≠ [] → bytesStartWith b pdfMagic = false →
      GeminiCachedExtractor.extract_text env b =
        ({ success := false, error := some "File is not a valid PDF" }, [])
      ∧ GeminiPDFExtractor.extract_text env b =
        ({ success := false, error := some "File is not a valid PDF" }, [])
      ∧ strContains "File is not a valid PDF" "not a valid" = true) := by
  constructor
  · rintro rfl
    exact ⟨rfl, rfl⟩
  · intro hne hbs
    have hv : validate_pdf_bytes b = (false, "File is not a valid PDF") := by
      simp [validate_pdf_bytes, hne, hbs]
    refine ⟨?_, ?_, by decide⟩
    · simp [GeminiCachedExtractor.extract_text, hv]
    · simp [GeminiPDFExtractor.extract_text, hv]

/-- Witness for C6 on bytes lacking the signature. -/
theorem invalid_input_rejected_witness :
    GeminiCachedExtractor.extract_text envHappy [1, 2, 3] =
      ({ success := false, error := some "File is not a valid PDF" }, []) :=
  ((invalid_input_rejected envHappy [1, 2, 3]).2 (by decide) (by decide)).1

/-- C6 counterexample: the empty input is rejected with `"File is empty"`,
an error message that does not mention "not a valid". -/
theorem invalid_input_cex :
    (GeminiCachedExtractor.extract_text envHappy []).1.error = some "File is empty"
    ∧ strContains "File is empty" "not a valid" = false := by
  exact ⟨rfl, by decide⟩

/-- Decidable form of the `ExtractionResult` invariant: `success = true`
forces a present, non-empty `text` and an absent `error`; `success =
false` forces an absent `text` and a present `error`. -/
def resultOk (r : ExtractionResult) : Bool :=
  if r.success then
    (match r.text with
     | some t => !(t == "")
     | none => false) && r.error.isNone
  else r.text.isNone && r.error.isSome

theorem resultOk_update (r : ExtractionResult) (p : Option Nat) (u : Bool) :
    resultOk { r with page_count := p, used_caching := u } = resultOk r := by
  cases r
  rfl

theorem parse_response_ok (r : GenResponse) : resultOk (parse_response r) = true := by
  unfold parse_response
  cases hc : r.candidates with
  | nil => simp [resultOk]
  | cons cand rest =>
    cases hf : cand.finish_reason with
    | none =>
      by_cases ht : r.text.getD "" = ""
      · simp [resultOk, hf, ht]
      · simp [resultOk, hf, ht]
    | some name =>
      by_cases hn : name = "STOP" ∨ name = "FINISH_REASON_UNSPECIFIED"
      · by_cases ht : r.text.getD "" = ""
        · simp [resultOk, hf, hn, ht]
        · simp [resultOk, hf, hn, ht]
      · simp [resultOk, hf, hn]

theorem simple_extract_ok (env : Env) (b : List Nat) :
    resultOk (GeminiPDFExtractor.extract_text env b).1 = true := by
  unfold GeminiPDFExtractor.extract_text
  by_cases hv : (validate_pdf_bytes b).1 = false
  · simp [hv, resultOk]
  · cases hd : env.genDirect with
    | error e => simp [hv, hd, resultOk]
    | ok r => simp [hv, hd, parse_response_ok r]

theorem extract_batched_without_cache_ok (env : Env) (n : Nat) (hn : 1 ≤ n) :
    resultOk (extract_batched_without_cache env n).1 = true := by
  cases hl : uncachedLoop env (calculate_batches n) 0 0 [] 0 0 with
  | mk ops r =>
    cases r with
    | error ex => cases ex <;> simp [extract_batched_without_cache, hl, resultOk]
    | ok v =>
      obtain ⟨res, pt, ct⟩ := v
      obtain ⟨tail, htail, hmap⟩ :=
        uncachedLoop_ok_results env (calculate_batches n) 0 0 [] 0 0 ops res pt ct hl
      have hres : res = tail := by simpa using htail
      cases hrc : res with
      | nil =>
        rw [← hres, hrc] at hmap
        exact absurd (by simpa using hmap.symm) (calculate_batches_ne_nil n hn)
      | cons r0 rest0 =>
        have hne := combineResults_ne_empty r0 rest0
        simp [extract_batched_without_cache, hl, hrc, resultOk, hne]

theorem extract_large_pdf_ok (env : Env) (n : Nat) (hn : 1 ≤ n) :
    resultOk (extract_large_pdf env n).1 = true := by
  cases hu : env.upload with
  | error e => simp [extract_large_pdf, hu, resultOk]
  | ok u =>
    cases hc : env.createCache 0 with
    | error e =>
      by_cases hf : isFallbackMsg e.msg = true
      · simp only [extract_large_pdf, hu, hc, hf, if_true]
        exact extract_batched_without_cache_ok env n hn
      · simp [extract_large_pdf, hu, hc, if_neg hf, resultOk]
    | ok u2 =>
      cases hl : cachedLoop env (calculate_batches n) 0 0 1 [] 0 0 with
      | mk ops r =>
        cases r with
        | error ex => cases ex <;> simp [extract_large_pdf, hu, hc, hl, resultOk]
        | ok v =>
          obtain ⟨res, pt, ct⟩ := v
          obtain ⟨tail, htail, hmap⟩ :=
            cachedLoop_ok_results env (calculate_batches n) 0 0 1 [] 0 0 ops res pt ct hl
          have hres : res = tail := by simpa using htail
          cases hrc : res with
          | nil =>
            rw [← hres, hrc] at hmap
            exact absurd (by simpa using hmap.symm) (calculate_batches_ne_nil n hn)
          | cons r0 rest0 =>
            have hne := combineResults_ne_empty r0 rest0
            simp [extract_large_pdf, hu, hc, hl, hrc, resultOk, hne]

/-- C5: every `ExtractionResult` returned by either `extract_text` entry
point satisfies: `success = true` implies `text` is a present non-empty
string and `error` is absent, and `success = false` implies `text` is
absent and `error` is present. -/
theorem result_invariant (env : Env) (b : List Nat) :
    resultOk (GeminiPDFExtractor.extract_text env b).1 = true
    ∧ resultOk (GeminiCachedExtractor.extract_text env b).1 = true := by
  refine ⟨simple_extract_ok env b, ?_⟩
  unfold GeminiCachedExtractor.extract_text
  by_cases hv : (validate_pdf_bytes b).1 = false
  · simp [hv, resultOk]
  · cases hp : env.probe with
    | error e => simp [hv, hp, resultOk]
    | ok n =>
      by_cases hn : n ≤ LARGE_PDF_THRESHOLD
      · simp only [hv, hp, if_neg, if_false, if_pos hn]
        rw [resultOk_update]
        exact simple_extract_ok env b
      · simp only [hv, hp, if_neg, if_false, if_neg hn]
        exact extract_large_pdf_ok env n
          (by simp only [LARGE_PDF_THRESHOLD] at hn; omega)

theorem string_append_left_cancel {a b c : String} (h : a ++ b = a ++ c) : b = c := by
  have hd := congrArg String.data h
  rw [String.data_append, String.data_append] at hd
  have hbc := List.append_cancel_left hd
  cases b
  cases c
  exact congrArg String.mk hbc

/-- C7 (amended): the cached-mode and uncached-mode batch generation calls
apply identical response classification to the completion's stop
condition, and every abnormal stop yields a classified failure whose
message `"Response incomplete: <reason>"` is distinct per cause — but
these messages differ from the direct extractor's per-cause messages. -/
theorem batch_classification (r : GenResponse) :
    processRespCached r = processRespUncached r
    ∧ (∀ (u : Option UsageMetadata) (t : Option String) (name : String),
        ¬ (name = "STOP" ∨ name = "FINISH_REASON_UNSPECIFIED") →
        processRespCached
            { candidates := [{ finish_reason := some name }], text := t,
              usage_metadata := u } =
          .error { typeName := "ValueError", msg := "Response incomplete: " ++ name })
    ∧ (∀ n1 n2 : String, n1 ≠ n2 →
        ("Response incomplete: " ++ n1) ≠ ("Response incomplete: " ++ n2))
    ∧ (∀ name ∈ (["MAX_TOKENS", "SAFETY", "RECITATION", "OTHER"] : List String),
        ("Response incomplete: " ++ name) ≠ reasonMessage name) := by
  refine ⟨rfl, ?_, ?_, by decide⟩
  · intro u t name hn
    simp [processRespCached, finishCheckCached, hn]
  · intro n1 n2 hne hc
    exact hne (string_append_left_cancel hc)

/-- Witness for C7: the `MAX_TOKENS` abnormal stop is classified the same
way by both batch modes, with the generic batch message. -/
theorem batch_classification_witness :
    processRespCached
        { candidates := [{ finish_reason := some "MAX_TOKENS" }], text := some "x",
          usage_metadata := none } =
      .error { typeName := "ValueError", msg := "Response incomplete: " ++ "MAX_TOKENS" } :=
  (batch_classification
      { candidates := [{ finish_reason := some "MAX_TOKENS" }], text := some "x",
        usage_metadata := none }).2.1 none (some "x") "MAX_TOKENS" (by decide)

/-- C7 counterexample: on a `MAX_TOKENS` stop the batch modes produce
`"Response incomplete: MAX_TOKENS"` while the direct extractor produces
`"Response was truncated due to maximum token limit"` — the messages are
not the same. -/
theorem batch_classification_cex :
    processRespCached
        { candidates := [{ finish_reason := some "MAX_TOKENS" }], text := some "x",
          usage_metadata := none } =
      .error { typeName := "ValueError", msg := "Response incomplete: MAX_TOKENS" }
    ∧ (parse_response
        { candidates := [{ finish_reason := some "MAX_TOKENS" }], text := some "x",
          usage_metadata := none }).error =
      some "Response was truncated due to maximum token limit"
    ∧ ("Response incomplete: MAX_TOKENS" : String) ≠
        "Response was truncated due to maximum token limit" := by
  refine ⟨rfl, rfl, by decide⟩

/-- `true` iff the upload succeeds and cache creation then fails with the
ineligibility message, i.e. the extractor takes the uncached fallback. -/
def fallbackTaken (env : Env) : Bool :=
  match env.upload with
  | .error _ => false
  | .ok _ =>
    match env.createCache 0 with
    | .ok _ => false
    | .error e => isFallbackMsg e.msg

/-- C8 (amended): `used_caching = true` exactly when the extraction
succeeded through the cached batched path without falling back to
uncached mode; `page_count` is populated on every small-document result
(success or failure) and on every batched success, but a batched-path
failure leaves `page_count` unset even though probing succeeded. -/
theorem caching_flag_page_count (env : Env) (b : List Nat) (n : Nat)
    (hv : (validate_pdf_bytes b).1 = true) (hp : env.probe = .ok n) :
    (n ≤ 5 →
      (GeminiCachedExtractor.extract_text env b).1.used_caching = false ∧
      (GeminiCachedExtractor.extract_text env b).1.page_count = some n)
    ∧ (5 < n →
      ((GeminiCachedExtractor.extract_text env b).1.used_caching = true ↔
        ((GeminiCachedExtractor.extract_text env b).1.success = true ∧
          fallbackTaken env = false)))
    ∧ (5 < n → (GeminiCachedExtractor.extract_text env b).1.success = true →
      (GeminiCachedExtractor.extract_text env b).1.page_count = some n)
    ∧ (5 < n → (GeminiCachedExtractor.extract_text env b).1.success = false →
      (GeminiCachedExtractor.extract_text env b).1.page_count = none) := by
  refine ⟨?_, ?_, ?_, ?_⟩
  · intro hn
    simp only [GeminiCachedExtractor.extract_text, hv, hp, Bool.true_eq_false, if_false]
    rw [if_pos (by simp only [LARGE_PDF_THRESHOLD]; omega)]
    exact ⟨rfl, rfl⟩
  all_goals intro hn
  all_goals rw [extract_text_large env b n hv hp hn]
  all_goals cases hu : env.upload with
    | error e => simp [extract_large_pdf, fallbackTaken, hu]
    | ok u =>
      cases hc : env.createCache 0 with
      | error e =>
        by_cases hf : isFallbackMsg e.msg = true
        · cases hl : uncachedLoop env (calculate_batches n) 0 0 [] 0 0 with
          | mk ops r =>
            cases r with
            | ok v =>
              obtain ⟨res, pt, ct⟩ := v
              simp [extract_large_pdf, extract_batched_without_cache, fallbackTaken,
                hu, hc, hf, hl]
            | error ex =>
              cases ex <;>
                simp [extract_large_pdf, extract_batched_without_cache, fallbackTaken,
                  hu, hc, hf, hl]
        · have hf2 : isFallbackMsg e.msg = false := by
            cases hq : isFallbackMsg e.msg
            · rfl
            · exact absurd hq hf
          simp [extract_large_pdf, fallbackTaken, hu, hc, if_neg hf, hf2]
      | ok u2 =>
        cases hl : cachedLoop env (calculate_batches n) 0 0 1 [] 0 0 with
        | mk ops r =>
          cases r with
          | ok v =>
            obtain ⟨res, pt, ct⟩ := v
            simp [extract_large_pdf, fallbackTaken, hu, hc, hl]
          | error ex =>
            cases ex <;> simp [extract_large_pdf, fallbackTaken, hu, hc, hl]

/-- Witness for C8: cached success has `used_caching = true` and carries
the page count; fallback success has `used_caching = false`. -/
theorem caching_flag_page_count_witness :
    ((GeminiCachedExtractor.extract_text envHappy validPdfBytes).1.used_caching = true ↔
      ((GeminiCachedExtractor.extract_text envHappy validPdfBytes).1.success = true ∧
        fallbackTaken envHappy = false))
    ∧ (GeminiCachedExtractor.extract_text envSmall validPdfBytes).1.page_count = some 3 :=
  ⟨(caching_flag_page_count envHappy validPdfBytes 6 rfl rfl).2.1 (by omega),
   ((caching_flag_page_count envSmall validPdfBytes 3 rfl rfl).1 (by omega)).2⟩

/-- C8 counterexample: a batched-path failure result has `page_count =
none` even though probing succeeded and reported 6 pages. -/
theorem caching_flag_page_count_cex :
    envBatchFail.probe = .ok 6
    ∧ (GeminiCachedExtractor.extract_text envBatchFail validPdfBytes).1.success = false
    ∧ (GeminiCachedExtractor.extract_text envBatchFail validPdfBytes).1.page_count = none := by
  exact ⟨rfl, rfl, rfl⟩

/-- C9: on every successful batched extraction (cached or uncached) the
returned text is the per-batch texts joined in ascending page order — one
entry per planned batch, in planner order, with strictly increasing start
pages — each batch prefixed with its page-range label and separated from
the next by a blank line. -/
theorem aggregation_order (env : Env) (b : List Nat) (n : Nat)
    (hv : (validate_pdf_bytes b).1 = true) (hp : env.probe = .ok n) (hn : 5 < n)
    (hs : (GeminiCachedExtractor.extract_text env b).1.success = true) :
    ∃ entries : List ((Nat × Nat) × String),
      entries.map Prod.fst = calculate_batches n
      ∧ List.Chain' (fun p q => p.1.1 < q.1.1) entries
      ∧ (GeminiCachedExtractor.extract_text env b).1.text =
          some (joinBlank (entries.map (fun p => batchLabel p.1.1 p.1.2 p.2))) := by
  rw [extract_text_large env b n hv hp hn] at hs ⊢
  have hchain := calcBatchesAux_chain (n + 1) n 1
  cases hu : env.upload with
  | error e => simp [extract_large_pdf, hu] at hs
  | ok u =>
    cases hc : env.createCache 0 with
    | error e =>
      by_cases hf : isFallbackMsg e.msg = true
      · cases hl : uncachedLoop env (calculate_batches n) 0 0 [] 0 0 with
        | mk ops r =>
          cases r with
          | error ex =>
            cases ex <;>
              simp [extract_large_pdf, extract_batched_without_cache, hu, hc, hf, hl] at hs
          | ok v =>
            obtain ⟨res, pt, ct⟩ := v
            obtain ⟨tail, htail, hmap⟩ :=
              uncachedLoop_ok_results env (calculate_batches n) 0 0 [] 0 0 ops res pt ct hl
            have hres : res = tail := by simpa using htail
            have hkeys : res.map Prod.fst = calculate_batches n := by
              rw [hres]
              exact hmap
            refine ⟨res, hkeys, ?_, ?_⟩
            · have h1 : List.Chain' (fun p q : Nat × Nat => p.1 < q.1)
                  (List.map Prod.fst res) := by
                rw [hkeys]
                exact hchain
              exact (List.chain'_map Prod.fst).mp h1
            · simp [extract_large_pdf, extract_batched_without_cache, hu, hc, hf, hl,
                combineResults]
      · simp [extract_large_pdf, hu, hc, if_neg hf] at hs
    | ok u2 =>
      cases hl : cachedLoop env (calculate_batches n) 0 0 1 [] 0 0 with
      | mk ops r =>
        cases r with
        | error ex => cases ex <;> simp [extract_large_pdf, hu, hc, hl] at hs
        | ok v =>
          obtain ⟨res, pt, ct⟩ := v
          obtain ⟨tail, htail, hmap⟩ :=
            cachedLoop_ok_results env (calculate_batches n) 0 0 1 [] 0 0 ops res pt ct hl
          have hres : res = tail := by simpa using htail
          have hkeys : res.map Prod.fst = calculate_batches n := by
            rw [hres]
            exact hmap
          refine ⟨res, hkeys, ?_, ?_⟩
          · have h1 : List.Chain' (fun p q : Nat × Nat => p.1 < q.1)
                (List.map Prod.fst res) := by
              rw [hkeys]
              exact hchain
            exact (List.chain'_map Prod.fst).mp h1
          · simp [extract_large_pdf, hu, hc, hl, combineResults]

/-- Witness for C9 on the happy cached path with 6 pages. -/
theorem aggregation_order_witness :
    ∃ entries : List ((Nat × Nat) × String),
      entries.map Prod.fst = calculate_batches 6
      ∧ List.Chain' (fun p q => p.1.1 < q.1.1) entries
      ∧ (GeminiCachedExtractor.extract_text envHappy validPdfBytes).1.text =
          some (joinBlank (entries.map (fun p => batchLabel p.1.1 p.1.2 p.2))) :=
  aggregation_order envHappy validPdfBytes 6 rfl rfl (by omega) rfl

/-- C10: in both batched modes a batch whose generated response text is
empty is accepted, not an error — its outcome carries empty text, the
whole extraction still succeeds, and the batch contributes only its
page-range label line to the composite text — whereas in direct
extraction an empty response text yields `success = false` with error
`"No text extracted from PDF"`. -/
theorem empty_batch_text (r : GenResponse)
    (hfin : finishCheckCached r = none) (hufin : finishCheckUncached r = none)
    (ht : r.text = some "") :
    (∃ o, processRespCached r = .ok o ∧ o.text = "")
    ∧ (∃ o, processRespUncached r = .ok o ∧ o.text = "")
    ∧ (GeminiCachedExtractor.extract_text envEmptyText validPdfBytes).1.success = true
    ∧ (GeminiCachedExtractor.extract_text envEmptyText validPdfBytes).1.text =
        some "## Pages 1-2\n\n\n## Pages 3-4\n\n\n## Pages 5-6\n"
    ∧ (∀ r2 : GenResponse, r2.candidates = [stopCandidate] → r2.text = some "" →
        parse_response r2 =
          { success := false, error := some "No text extracted from PDF" }) := by
  refine ⟨?_, ?_, rfl, rfl, ?_⟩
  · refine ⟨{ text := r.text.getD "",
              prompt_tokens :=
                match r.usage_metadata with
                | none => some 0
                | some u => u.prompt_token_count,
              completion_tokens :=
                match r.usage_metadata with
                | none => some 0
                | some u => u.candidates_token_count }, ?_, ?_⟩
    · simp [processRespCached, hfin]
    · simp [ht]
  · refine ⟨{ text := r.text.getD "",
              prompt_tokens :=
                match r.usage_metadata with
                | none => some 0
                | some u => u.prompt_token_count,
              completion_tokens :=
                match r.usage_metadata with
                | none => some 0
                | some u => u.candidates_token_count }, ?_, ?_⟩
    · simp [processRespUncached, hufin]
    · simp [ht]
  · intro r2 h1 h2
    simp [parse_response, h1, h2, stopCandidate]

/-- Witness for C10 at the concrete empty-text response. -/
theorem empty_batch_text_witness :
    (GeminiCachedExtractor.extract_text envEmptyText validPdfBytes).1.success = true
    ∧ parse_response emptyTextResp =
        { success := false, error := some "No text extracted from PDF" } :=
  ⟨(empty_batch_text emptyTextResp rfl rfl rfl).2.2.1,
   (empty_batch_text emptyTextResp rfl rfl rfl).2.2.2.2 emptyTextResp rfl rfl⟩
